import Mathlib

/-!
Verification of the `Relay` circuit breaker (`src/relay.ts` of Dev-Etto/surge-kit).

The Relay is a single stateful object mutated by `run` completions, by the
cooldown timer firing, by `cleanup`, and by `register`.  We embed it as a
structure `Relay` together with a step function `step : Relay → Event → Relay`
over the single-threaded event-loop model the implementation assumes: each
`run` call is an event carrying the outcome of the raced execution
(success / operation failure / timeout), and each scheduled `setTimeout`
callback is a separate event that may fire later.

Two pieces of timer bookkeeping are made explicit, mirroring the JS runtime:
* `coolDownTimer` is the `#coolDownTimer` field (the held `Timeout`
  reference; `some d` = field non-null, scheduled with delay `d`), and
  `coolDownPending` records whether its callback is still scheduled
  (it becomes `false` when the callback runs or when `clearTimeout` is
  called; note the *field* is not nulled by the callback itself).
* `pendingExecTimeouts` counts the execution-timeout `setTimeout` callbacks
  created by `#runWithTimeout` that have not yet fired.  The source never
  calls `clearTimeout` on these, so one remains scheduled after every
  attempt that settles before its timeout, and its callback unconditionally
  increments `#timeoutCount` when it eventually fires.
-/

namespace SurgeKit

/-- `RelayState` from `src/types.ts`. -/
inductive RelayState where
  | CLOSED
  | OPEN
  | HALF_OPEN
deriving DecidableEq, Repr

/-- The resolved option record (`InternalOptions`).  The default fallback
function itself is opaque to the state machine; we record only whether one
was configured (`onFallback !== null`). -/
structure InternalOptions where
  failureThreshold : Nat
  coolDownPeriod : Nat
  executionTimeout : Nat
  useExponentialBackoff : Bool
  maxCooldown : Nat
  onFallback : Bool
deriving DecidableEq, Repr

/-- The `??` defaults applied by the constructor. -/
def defaultInternalOptions : InternalOptions :=
  { failureThreshold := 5
    coolDownPeriod := 30000
    executionTimeout := 10000
    useExponentialBackoff := false
    maxCooldown := 600000
    onFallback := false }

/-- JavaScript values as far as `register` inspects them: `typeof`,
member access, and function identity.  Functions are identified by a
numeric id (the registry is identity-keyed).  An object carries whether
its prototype is `Object.prototype` (an object literal), its own
enumerable-by-`getOwnPropertyNames` properties, and the properties of its
prototype. -/
inductive JSValue where
  | vnull
  | vundefined
  | vbool (b : Bool)
  | vnum (n : Int)
  | vstr (s : String)
  | vfunc (id : Nat)
  | vobj (protoIsObjectPrototype : Bool)
         (ownProps : List (String × JSValue))
         (protoProps : List (String × JSValue))

/-- JavaScript `typeof`.  Note `typeof null === 'object'`. -/
def typeofStr : JSValue → String
  | .vnull => "object"
  | .vundefined => "undefined"
  | .vbool _ => "boolean"
  | .vnum _ => "number"
  | .vstr _ => "string"
  | .vfunc _ => "function"
  | .vobj _ _ _ => "object"

/-- First match in an association list of properties. -/
def lookupProp : List (String × JSValue) → String → Option JSValue
  | [], _ => none
  | (k, v) :: rest, name => if k = name then some v else lookupProp rest name

/-- Member access `v[name]`: throws a `TypeError` on `null`/`undefined`;
on an object it resolves own properties then the prototype's, yielding
`undefined` when absent; other primitives have no properties we model. -/
def getProp : JSValue → String → Except Unit JSValue
  | .vnull, _ => .error ()
  | .vundefined, _ => .error ()
  | .vobj _ own protoProps, name =>
    .ok (match lookupProp own name with
         | some v => v
         | none => (lookupProp protoProps name).getD .vundefined)
  | _, _ => .ok .vundefined

/-- `Map.set` on the identity-keyed fallback registry. -/
def setEntry : List (Nat × Nat) → Nat → Nat → List (Nat × Nat)
  | [], k, v => [(k, v)]
  | (k', v') :: rest, k, v =>
    if k' = k then (k, v) :: rest else (k', v') :: setEntry rest k v

/-- `Map.get` on the identity-keyed fallback registry. -/
def lookupReg : List (Nat × Nat) → Nat → Option Nat
  | [], _ => none
  | (k', v) :: rest, k => if k' = k then some v else lookupReg rest k

/-- Result of a `register` call: the registry afterwards (entries `set`
before an exception persist) and whether it threw. -/
structure RegOutcome where
  registry : List (Nat × Nat)
  threw : Bool
deriving DecidableEq, Repr

/-- The `for (const method of methodNames)` loop body of `register`:
skip `'constructor'`, require `typeof primary[method] === 'function'`
and `typeof fallback[method] === 'function'`, then `set`.  Member access
on a `null` side throws, keeping the entries already set. -/
def processMethods (primary fb : JSValue) :
    List (Nat × Nat) → List String → RegOutcome
  | reg, [] => ⟨reg, false⟩
  | reg, name :: rest =>
    if name = "constructor" then processMethods primary fb reg rest
    else
      match getProp primary name with
      | .error _ => ⟨reg, true⟩
      | .ok pv =>
        if typeofStr pv = "function" then
          match getProp fb name with
          | .error _ => ⟨reg, true⟩
          | .ok fv =>
            if typeofStr fv = "function" then
              match pv, fv with
              | .vfunc p, .vfunc f => processMethods primary fb (setEntry reg p f) rest
              | _, _ => processMethods primary fb reg rest
            else processMethods primary fb reg rest
        else processMethods primary fb reg rest

/-- `Relay.register(primary, fallback)` (lines 91–110): a function pair is
stored directly; an `typeof`-object pair is walked method by method, where
the method-name source depends on whether `primary` is an object literal
(`Object.getPrototypeOf(primary) === Object.prototype`); anything else
falls through silently.  `Object.getPrototypeOf(null)` throws a
`TypeError`. -/
def registerModel (reg : List (Nat × Nat)) (primary fb : JSValue) : RegOutcome :=
  if typeofStr primary = "function" ∧ typeofStr fb = "function" then
    match primary, fb with
    | .vfunc p, .vfunc f => ⟨setEntry reg p f, false⟩
    | _, _ => ⟨reg, false⟩
  else if typeofStr primary = "object" ∧ typeofStr fb = "object" then
    match primary with
    | .vnull => ⟨reg, true⟩
    | .vobj protoIsObjectPrototype own protoProps =>
      let methodNames :=
        if protoIsObjectPrototype then own.map Prod.fst else protoProps.map Prod.fst
      processMethods primary fb reg methodNames
    | _ => ⟨reg, false⟩
  else ⟨reg, false⟩

/-- The mutable fields of a `Relay` instance plus its immutable options. -/
structure Relay where
  failureCount : Nat
  lastFailureTime : Nat
  successCount : Nat
  totalFailureCount : Nat
  timeoutCount : Nat
  state : RelayState
  consecutiveOpenCount : Nat
  coolDownTimer : Option Nat
  coolDownPending : Bool
  pendingExecTimeouts : Nat
  options : InternalOptions
  fallbackRegistry : List (Nat × Nat)
deriving DecidableEq, Repr

/-- A freshly constructed Relay: CLOSED, every counter zero, no timer. -/
def initRelay (opts : InternalOptions) : Relay :=
  { failureCount := 0
    lastFailureTime := 0
    successCount := 0
    totalFailureCount := 0
    timeoutCount := 0
    state := RelayState.CLOSED
    consecutiveOpenCount := 0
    coolDownTimer := none
    coolDownPending := false
    pendingExecTimeouts := 0
    options := opts
    fallbackRegistry := [] }

/-- `#calculateCooldown` (lines 225–232). -/
def calculateCooldown (r : Relay) : Nat :=
  if !r.options.useExponentialBackoff then r.options.coolDownPeriod
  else
    let multiplier := 2 ^ (r.consecutiveOpenCount - 1)
    let backoffCooldown := r.options.coolDownPeriod * multiplier
    min backoffCooldown r.options.maxCooldown

/-- `#open` (lines 209–220): bump `consecutiveOpenCount`, go OPEN, stamp
`lastFailureTime`, and schedule the half-open probe for the computed
cooldown. -/
def openRelay (r : Relay) (now : Nat) : Relay :=
  let r1 := { r with consecutiveOpenCount := r.consecutiveOpenCount + 1
                     state := RelayState.OPEN
                     lastFailureTime := now }
  let coolDownPeriod := calculateCooldown r1
  { r1 with coolDownTimer := some coolDownPeriod, coolDownPending := true }

/-- `#close` (lines 237–249): CLOSED, both consecutive counters reset,
and any held timer cancelled and nulled. -/
def closeRelay (r : Relay) : Relay :=
  let r1 := { r with state := RelayState.CLOSED
                     consecutiveOpenCount := 0
                     failureCount := 0 }
  if r1.coolDownTimer.isSome then
    { r1 with coolDownTimer := none, coolDownPending := false }
  else r1

/-- `#halfOpen` (lines 254–258): only the state changes; in particular the
held timer reference is not nulled here. -/
def halfOpenRelay (r : Relay) : Relay :=
  { r with state := RelayState.HALF_OPEN }

/-- `#handleSuccess` (lines 140–149). -/
def handleSuccess (r : Relay) : Relay :=
  let r1 := { r with successCount := r.successCount + 1, failureCount := 0 }
  if r1.state = RelayState.HALF_OPEN then closeRelay r1 else r1

/-- `#handleFailure` (lines 154–165). -/
def handleFailure (r : Relay) (now : Nat) : Relay :=
  let r1 := { r with totalFailureCount := r.totalFailureCount + 1
                     failureCount := r.failureCount + 1 }
  if r1.options.failureThreshold ≤ r1.failureCount ∧ r1.state ≠ RelayState.OPEN then
    openRelay r1 now
  else r1

/-- `cleanup` (lines 73–78): clear and null the cooldown timer if held. -/
def cleanup (r : Relay) : Relay :=
  if r.coolDownTimer.isSome then
    { r with coolDownTimer := none, coolDownPending := false }
  else r

/-- `register` acting on the whole instance: the registry is replaced by
the outcome of `registerModel` (partial updates before a thrown
`TypeError` persist) and nothing else is touched; the second component
records whether the call threw. -/
def relayRegister (r : Relay) (primary fb : JSValue) : Relay × Bool :=
  let out := registerModel r.fallbackRegistry primary fb
  ({ r with fallbackRegistry := out.registry }, out.threw)

/-- `RelayMetrics` snapshot (`getMetrics`, lines 271–279). -/
structure RelayMetrics where
  state : RelayState
  successes : Nat
  failures : Nat
  timeouts : Nat
  total : Nat
deriving DecidableEq, Repr

def getMetrics (r : Relay) : RelayMetrics :=
  { state := r.state
    successes := r.successCount
    failures := r.totalFailureCount
    timeouts := r.timeoutCount
    total := r.successCount + r.totalFailureCount }

/-- How a raced attempt settles: the operation resolves, the operation
rejects, or the execution-timeout timer fires first. -/
inductive Outcome where
  | success
  | failure
  | timeout
deriving DecidableEq, Repr

/-- The events that mutate a Relay: a `run` call whose race settles with
the given outcome at time `now`, the cooldown callback firing, a leaked
execution-timeout callback firing, `cleanup()`, and `register`. -/
inductive Event where
  | run (o : Outcome) (now : Nat)
  | coolDownFire
  | execTimeoutFire
  | cleanupEv
  | registerEv (primary fb : JSValue)

/-- One event-loop step of the Relay.

`run` (lines 117–135): an OPEN relay short-circuits before
`#runWithTimeout`, leaving every field untouched.  Otherwise the race is
started, which schedules an execution-timeout callback; if the operation
settles first that callback stays pending (`#runWithTimeout` never clears
it), and if the timeout fires first it has already incremented
`#timeoutCount` before rejecting into `#handleFailure`.

`coolDownFire`: the scheduled `#halfOpen` callback, which can only run
while still pending.  `execTimeoutFire`: a leaked execution-timeout
callback running `this.#timeoutCount++`.  `registerEv` replaces the
registry by the result of the `register` call (its only effect on the
instance, whether or not it threw). -/
def step (r : Relay) : Event → Relay
  | .run o now =>
    if r.state = RelayState.OPEN then r
    else
      match o with
      | .success => handleSuccess { r with pendingExecTimeouts := r.pendingExecTimeouts + 1 }
      | .failure => handleFailure { r with pendingExecTimeouts := r.pendingExecTimeouts + 1 } now
      | .timeout => handleFailure { r with timeoutCount := r.timeoutCount + 1 } now
  | .coolDownFire =>
    if r.coolDownPending then
      { halfOpenRelay r with coolDownPending := false }
    else r
  | .execTimeoutFire =>
    if 0 < r.pendingExecTimeouts then
      { r with pendingExecTimeouts := r.pendingExecTimeouts - 1
               timeoutCount := r.timeoutCount + 1 }
    else r
  | .cleanupEv => cleanup r
  | .registerEv primary fb =>
    { r with fallbackRegistry := (registerModel r.fallbackRegistry primary fb).registry }

/-- Relay states reachable from a fresh instance by event-loop steps. -/
inductive Reachable : Relay → Prop where
  | init (opts : InternalOptions) : Reachable (initRelay opts)
  | next {r : Relay} (h : Reachable r) (e : Event) : Reachable (step r e)

/-- The failure kinds a `run` call can resolve a fallback against:
`RelayOpenError`, the synthesized `Execution timed out` error, and an
error thrown by the operation itself. -/
inductive Err where
  | relayOpen
  | timedOut
  | operation
deriving DecidableEq, Repr

/-- What a `run` call returns to its caller. -/
inductive RunResult where
  | completed
  | fbRegistered (fb : Nat) (error : Err) (args : List Nat)
  | fbDefault (error : Err)
  | propagated (error : Err)
deriving DecidableEq, Repr

/-- Caller-visible view of one `run` call: whether the wrapped operation
was invoked, and what was returned. -/
structure RunView where
  invoked : Bool
  result : RunResult
deriving DecidableEq, Repr

/-- `#executeFallback` (lines 189–204): the registry entry for this exact
callable, called as `registeredFallback(error, ...args)`; else the
configured `onFallback(error)`; else `throw error`. -/
def executeFallback (r : Relay) (fn : Nat) (error : Err) (args : List Nat) : RunResult :=
  match lookupReg r.fallbackRegistry fn with
  | some fb => .fbRegistered fb error args
  | none =>
    if r.options.onFallback then .fbDefault error else .propagated error

/-- The value flow of `run` (lines 117–135) for an attempt on callable
`fn` with the given race outcome. -/
def runView (r : Relay) (fn : Nat) (o : Outcome) (args : List Nat) : RunView :=
  if r.state = RelayState.OPEN then
    ⟨false, executeFallback r fn Err.relayOpen args⟩
  else
    match o with
    | .success => ⟨true, RunResult.completed⟩
    | .failure => ⟨true, executeFallback r fn Err.operation args⟩
    | .timeout => ⟨true, executeFallback r fn Err.timedOut args⟩

/-! ### Concrete instances used by counterexamples and witnesses -/

/-- A Relay configured with `failureThreshold := 1` (otherwise defaults). -/
def optsT1 : InternalOptions :=
  { failureThreshold := 1
    coolDownPeriod := 30000
    executionTimeout := 10000
    useExponentialBackoff := false
    maxCooldown := 600000
    onFallback := false }

/-- `new Relay(optsT1)`; one failing call; the cooldown fires. -/
def exR0 : Relay := initRelay optsT1

def exR1 : Relay := step exR0 (Event.run Outcome.failure 0)

def exR2 : Relay := step exR1 Event.coolDownFire

/-- `new Relay(optsT1)` after one failing call at time 7 (OPEN). -/
def exO : Relay := step (initRelay optsT1) (Event.run Outcome.failure 7)

/-- A default-configured Relay; one immediately successful call; the
execution-timeout callback of that call fires `executionTimeout` later. -/
def exS0 : Relay := initRelay defaultInternalOptions

def exS1 : Relay := step exS0 (Event.run Outcome.success 0)

def exS2 : Relay := step exS1 Event.execTimeoutFire

/-- Sanity: the scenario of `relay.test.ts` ("should OPEN after failures,
go to HALF_OPEN after coolDown, and CLOSE after a success") with
`failureThreshold := 2`. -/
example :
    let opts : InternalOptions := { defaultInternalOptions with failureThreshold := 2, coolDownPeriod := 5000 }
    let r1 := step (initRelay opts) (Event.run Outcome.failure 1)
    let r2 := step r1 (Event.run Outcome.failure 2)
    let r3 := step r2 (Event.run Outcome.failure 3)
    let r4 := step r3 Event.coolDownFire
    let r5 := step r4 (Event.run Outcome.success 4)
    r1.state = RelayState.CLOSED ∧ r2.state = RelayState.OPEN ∧
      r3 = r2 ∧ r4.state = RelayState.HALF_OPEN ∧
      r5.state = RelayState.CLOSED ∧ r5.failureCount = 0 := by decide

/-- Sanity: exponential backoff schedules 1000, 2000, then is capped at
`maxCooldown = 2500` (scenario of "should not exceed maxCooldown"). -/
example :
    let opts : InternalOptions := { defaultInternalOptions with
      failureThreshold := 1, coolDownPeriod := 1000,
      useExponentialBackoff := true, maxCooldown := 2500 }
    let r1 := step (initRelay opts) (Event.run Outcome.failure 1)
    let r2 := step (step r1 Event.coolDownFire) (Event.run Outcome.failure 2)
    let r3 := step (step r2 Event.coolDownFire) (Event.run Outcome.failure 3)
    r1.coolDownTimer = some 1000 ∧ r2.coolDownTimer = some 2000 ∧
      r3.coolDownTimer = some 2500 := by decide

/-! ### Reachability invariants -/

/-- The options record is read-only: no event changes it. -/
theorem step_options (r : Relay) (e : Event) : (step r e).options = r.options := by
  cases e with
  | run o now =>
    cases o <;>
      simp only [step, handleSuccess, handleFailure, openRelay, closeRelay] <;>
      split_ifs <;> rfl
  | coolDownFire => simp only [step, halfOpenRelay]; split_ifs <;> rfl
  | execTimeoutFire => simp only [step]; split_ifs <;> rfl
  | cleanupEv => simp only [step, cleanup]; split_ifs <;> rfl
  | registerEv primary fb => rfl

/-- The key state invariant: a pending cooldown callback exists only in
the OPEN state and only while the handle is held, a relay away from
CLOSED has accumulated at least `failureThreshold` consecutive failures
(the open transition does not reset `failureCount`), and a CLOSED relay
is strictly below the threshold (when the threshold is positive). -/
def RelayInv (r : Relay) : Prop :=
  (r.coolDownPending = true → r.state = RelayState.OPEN ∧ r.coolDownTimer.isSome = true) ∧
  (r.state ≠ RelayState.CLOSED → r.options.failureThreshold ≤ r.failureCount) ∧
  (1 ≤ r.options.failureThreshold → r.state = RelayState.CLOSED →
    r.failureCount < r.options.failureThreshold)

theorem relayInv_init (opts : InternalOptions) : RelayInv (initRelay opts) := by
  refine ⟨?_, ?_, ?_⟩ <;> simp [initRelay, RelayInv]
  exact fun h => h

set_option maxHeartbeats 4000000 in
theorem relayInv_step (r : Relay) (e : Event) (h : RelayInv r) : RelayInv (step r e) := by
  obtain ⟨fc, lft, sc, tfc, tc, st, coc, cdt, cdp, pet, opts, reg⟩ := r
  obtain ⟨h1, h2, h3⟩ := h
  simp only [RelayInv] at *
  cases e with
  | run o now =>
    cases st <;> cases o <;>
      simp_all [step, handleSuccess, handleFailure, openRelay, closeRelay,
        calculateCooldown] <;>
      (try split_ifs) <;> (try simp_all) <;> intros <;> omega
  | coolDownFire =>
    cases cdp <;> simp_all [step, halfOpenRelay]
  | execTimeoutFire =>
    simp only [step]
    split_ifs <;> exact ⟨h1, h2, h3⟩
  | cleanupEv =>
    cases cdp <;> cases cdt <;> simp_all [step, cleanup]
  | registerEv primary fb =>
    exact ⟨h1, h2, h3⟩

theorem reachable_inv (r : Relay) (h : Reachable r) : RelayInv r := by
  induction h with
  | init opts => exact relayInv_init opts
  | next h e ih => exact relayInv_step _ e ih

/-! ### Field effects of individual steps -/

theorem step_state_run_success (r : Relay) (now : Nat) (h : r.state ≠ RelayState.OPEN) :
    (step r (Event.run Outcome.success now)).state =
      if r.state = RelayState.HALF_OPEN then RelayState.CLOSED else r.state := by
  simp only [step, handleSuccess, closeRelay, if_neg h]
  split_ifs <;> rfl

theorem step_state_run_failure (r : Relay) (now : Nat) (h : r.state ≠ RelayState.OPEN) :
    (step r (Event.run Outcome.failure now)).state =
      if r.options.failureThreshold ≤ r.failureCount + 1 then RelayState.OPEN
      else r.state := by
  simp only [step, handleFailure, openRelay, if_neg h]
  split_ifs with h1 h2 <;> simp_all

theorem step_state_run_timeout (r : Relay) (now : Nat) (h : r.state ≠ RelayState.OPEN) :
    (step r (Event.run Outcome.timeout now)).state =
      if r.options.failureThreshold ≤ r.failureCount + 1 then RelayState.OPEN
      else r.state := by
  simp only [step, handleFailure, openRelay, if_neg h]
  split_ifs with h1 h2 <;> simp_all

theorem step_failureCount_run_failure (r : Relay) (now : Nat)
    (h : r.state ≠ RelayState.OPEN) :
    (step r (Event.run Outcome.failure now)).failureCount = r.failureCount + 1 := by
  simp only [step, handleFailure, openRelay, if_neg h]
  split_ifs <;> rfl

theorem step_failureCount_run_timeout (r : Relay) (now : Nat)
    (h : r.state ≠ RelayState.OPEN) :
    (step r (Event.run Outcome.timeout now)).failureCount = r.failureCount + 1 := by
  simp only [step, handleFailure, openRelay, if_neg h]
  split_ifs <;> rfl

theorem step_run_failure_open_fields (r : Relay) (now : Nat)
    (h : r.state ≠ RelayState.OPEN)
    (hG : r.options.failureThreshold ≤ r.failureCount + 1) :
    (step r (Event.run Outcome.failure now)).consecutiveOpenCount =
      r.consecutiveOpenCount + 1 ∧
    (step r (Event.run Outcome.failure now)).coolDownTimer = some (
      if r.options.useExponentialBackoff then
        min (r.options.coolDownPeriod * 2 ^ (r.consecutiveOpenCount + 1 - 1))
            r.options.maxCooldown
      else r.options.coolDownPeriod) := by
  simp only [step, handleFailure, openRelay, calculateCooldown, if_neg h]
  cases hb : r.options.useExponentialBackoff <;> simp_all

theorem step_run_timeout_open_fields (r : Relay) (now : Nat)
    (h : r.state ≠ RelayState.OPEN)
    (hG : r.options.failureThreshold ≤ r.failureCount + 1) :
    (step r (Event.run Outcome.timeout now)).consecutiveOpenCount =
      r.consecutiveOpenCount + 1 ∧
    (step r (Event.run Outcome.timeout now)).coolDownTimer = some (
      if r.options.useExponentialBackoff then
        min (r.options.coolDownPeriod * 2 ^ (r.consecutiveOpenCount + 1 - 1))
            r.options.maxCooldown
      else r.options.coolDownPeriod) := by
  simp only [step, handleFailure, openRelay, calculateCooldown, if_neg h]
  cases hb : r.options.useExponentialBackoff <;> simp_all

/-! ### Claims -/

/-- C8: after any sequence of attempts and timer firings, the `total`
field of the snapshot returned by `getMetrics()` equals its `successes`
field plus its `failures` field. -/
theorem metrics_total_eq_successes_add_failures (r : Relay) :
    (getMetrics r).total = (getMetrics r).successes + (getMetrics r).failures := rfl

/-- C2 (failing input): on a default-configured Relay, one `run` whose
operation resolves immediately leaves `timeoutCount = 0`, but the
execution-timeout callback scheduled by `#runWithTimeout` was never
cleared, and when it fires `executionTimeout` later it increments
`timeoutCount` to 1 even though no call timed out — contradicting the
claim that a call completing within `executionTimeout` never increments
the timeout counter. -/
theorem timeout_counter_after_success :
    exS1.successCount = 1 ∧ exS1.totalFailureCount = 0 ∧ exS1.timeoutCount = 0 ∧
    exS1.pendingExecTimeouts = 1 ∧
    exS2.successCount = 1 ∧ exS2.totalFailureCount = 0 ∧ exS2.timeoutCount = 1 ∧
    (getMetrics exS2).timeouts = 1 := by decide

/-- C3: a `run` call made while the state is OPEN never invokes the
wrapped operation, resolves through fallback resolution with a
`RelayOpenError`, and leaves every field of the Relay — all counters,
metrics, state, and `lastFailureTime` — unchanged. -/
theorem run_while_open_frame (r : Relay) (o : Outcome) (now fn : Nat) (args : List Nat)
    (h : r.state = RelayState.OPEN) :
    step r (Event.run o now) = r ∧
    (runView r fn o args).invoked = false ∧
    (runView r fn o args).result = executeFallback r fn Err.relayOpen args := by
  refine ⟨?_, ?_, ?_⟩ <;> simp [step, runView, h]

/-- C3 witness: the Relay `exO` is OPEN; a `run` there changes nothing and
resolves the `RelayOpenError` through fallback resolution. -/
theorem run_while_open_frame_witness :
    step exO (Event.run Outcome.success 3) = exO ∧
    (runView exO 2 Outcome.success [5]).invoked = false ∧
    (runView exO 2 Outcome.success [5]).result = executeFallback exO 2 Err.relayOpen [5] :=
  run_while_open_frame exO Outcome.success 3 2 [5] (by decide)

/-- C7: `cleanup()` cancels any pending cooldown timer and nulls the held
reference, is idempotent, leaves state, every counter and the metrics
snapshot unchanged, and afterwards the scheduled OPEN→HALF_OPEN
transition can never fire. -/
theorem cleanup_frame_idempotent (r : Relay) (hr : Reachable r) :
    (cleanup r).coolDownTimer = none ∧
    (cleanup r).coolDownPending = false ∧
    (cleanup r).state = r.state ∧
    (cleanup r).failureCount = r.failureCount ∧
    (cleanup r).successCount = r.successCount ∧
    (cleanup r).totalFailureCount = r.totalFailureCount ∧
    (cleanup r).timeoutCount = r.timeoutCount ∧
    (cleanup r).consecutiveOpenCount = r.consecutiveOpenCount ∧
    (cleanup r).lastFailureTime = r.lastFailureTime ∧
    getMetrics (cleanup r) = getMetrics r ∧
    cleanup (cleanup r) = cleanup r ∧
    step (cleanup r) Event.coolDownFire = cleanup r := by
  have h1 := (reachable_inv r hr).1
  cases hc : r.coolDownTimer with
  | some d => simp [cleanup, hc, getMetrics, step]
  | none =>
    have hp : r.coolDownPending = false := by
      cases hcd : r.coolDownPending
      · rfl
      · have := (h1 hcd).2
        rw [hc] at this
        cases this
    simp [cleanup, hc, hp, getMetrics, step]

/-- C7 witness: cleaning up the OPEN Relay `exO` (which holds a pending
cooldown timer) clears the timer, changes nothing else, is idempotent,
and the cooldown callback can no longer fire. -/
theorem cleanup_frame_idempotent_witness :
    (cleanup exO).coolDownTimer = none ∧
    (cleanup exO).coolDownPending = false ∧
    (cleanup exO).state = exO.state ∧
    (cleanup exO).failureCount = exO.failureCount ∧
    (cleanup exO).successCount = exO.successCount ∧
    (cleanup exO).totalFailureCount = exO.totalFailureCount ∧
    (cleanup exO).timeoutCount = exO.timeoutCount ∧
    (cleanup exO).consecutiveOpenCount = exO.consecutiveOpenCount ∧
    (cleanup exO).lastFailureTime = exO.lastFailureTime ∧
    getMetrics (cleanup exO) = getMetrics exO ∧
    cleanup (cleanup exO) = cleanup exO ∧
    step (cleanup exO) Event.coolDownFire = cleanup exO :=
  cleanup_frame_idempotent exO
    (Reachable.next (Reachable.init optsT1) (Event.run Outcome.failure 7))

/-- C6: for every failing attempt — the synthesized `RelayOpenError`
while OPEN, an operation failure, or the synthesized timeout error —
fallback resolution is uniform and ordered: a fallback registered for the
exact operation reference is invoked with `(error, ...args)` and its
result returned; otherwise a configured default `onFallback` is invoked
with `(error)`; otherwise the originating error propagates unmodified. -/
theorem fallback_resolution_order (r : Relay) (fn : Nat) (args : List Nat)
    (o : Outcome) (e : Err)
    (hfail : (r.state = RelayState.OPEN ∧ e = Err.relayOpen) ∨
             (r.state ≠ RelayState.OPEN ∧ o = Outcome.failure ∧ e = Err.operation) ∨
             (r.state ≠ RelayState.OPEN ∧ o = Outcome.timeout ∧ e = Err.timedOut)) :
    (runView r fn o args).result =
      match lookupReg r.fallbackRegistry fn with
      | some fb => RunResult.fbRegistered fb e args
      | none =>
        if r.options.onFallback then RunResult.fbDefault e
        else RunResult.propagated e := by
  rcases hfail with ⟨hs, he⟩ | ⟨hs, ho, he⟩ | ⟨hs, ho, he⟩
  · subst he; simp [runView, executeFallback, hs]
  · subst he; subst ho; simp [runView, executeFallback, hs]
  · subst he; subst ho; simp [runView, executeFallback, hs]

/-- C6 witness: a plain operation failure on a freshly constructed Relay
resolves through the ordered fallback chain. -/
theorem fallback_resolution_order_witness :
    (runView exR0 0 Outcome.failure []).result =
      match lookupReg exR0.fallbackRegistry 0 with
      | some fb => RunResult.fbRegistered fb Err.operation []
      | none =>
        if exR0.options.onFallback then RunResult.fbDefault Err.operation
        else RunResult.propagated Err.operation :=
  fallback_resolution_order exR0 0 [] Outcome.failure Err.operation
    (Or.inr (Or.inl ⟨by decide, rfl, rfl⟩))

/-- C1 counterexample: with `failureThreshold = 1`, one failing call opens
the Relay and the cooldown firing moves it to HALF_OPEN, a reachable
state in which `failureCount = 1` is NOT strictly below the threshold —
`#open` never resets `failureCount`, so the claimed invariant fails
immediately after the cooldown timer fires. -/
theorem failureCount_halfOpen_cex :
    Reachable exR2 ∧ exR2.state = RelayState.HALF_OPEN ∧
    ¬ exR2.failureCount < exR2.options.failureThreshold :=
  ⟨show Reachable exR2 from
      Reachable.next
        (Reachable.next (Reachable.init optsT1) (Event.run Outcome.failure 0))
        Event.coolDownFire,
    by decide, by decide⟩

/-- C1 (amended): on every reachable Relay with a positive
`failureThreshold`, `failureCount < failureThreshold` holds whenever the
state is CLOSED; in HALF_OPEN the opposite holds — `failureCount`
retains its pre-open value, which is at least the threshold. -/
theorem failureCount_bound (r : Relay) (hr : Reachable r)
    (hpos : 1 ≤ r.options.failureThreshold) :
    (r.state = RelayState.CLOSED → r.failureCount < r.options.failureThreshold) ∧
    (r.state = RelayState.HALF_OPEN → r.options.failureThreshold ≤ r.failureCount) := by
  obtain ⟨h1, h2, h3⟩ := reachable_inv r hr
  exact ⟨h3 hpos, fun hh => h2 (by rw [hh]; decide)⟩

/-- C1 witness: the bound at a freshly constructed Relay with
`failureThreshold = 1`. -/
theorem failureCount_bound_witness :
    (exR0.state = RelayState.CLOSED → exR0.failureCount < exR0.options.failureThreshold) ∧
    (exR0.state = RelayState.HALF_OPEN → exR0.options.failureThreshold ≤ exR0.failureCount) :=
  failureCount_bound exR0 (Reachable.init optsT1) (by decide)

/-- C9 counterexample: in the reachable HALF_OPEN state `exR2` (cooldown
timer fired) the held timer reference is still `some 30000`, not null —
`#halfOpen` does not null `#coolDownTimer`, so the handle is not nulled
when consumed and is non-null while HALF_OPEN. -/
theorem timer_handle_halfOpen_cex :
    Reachable exR2 ∧ exR2.state = RelayState.HALF_OPEN ∧
    exR2.coolDownPending = false ∧ exR2.coolDownTimer = some 30000 :=
  ⟨show Reachable exR2 from
      Reachable.next
        (Reachable.next (Reachable.init optsT1) (Event.run Outcome.failure 0))
        Event.coolDownFire,
    by decide, by decide, by decide⟩

/-- C9 (amended): on every reachable Relay, a pending cooldown callback
exists only while the state is OPEN and the handle is held; the handle is
nulled when cancelled (by `#close` or `cleanup()`), but NOT when the
timer fires — the OPEN→HALF_OPEN transition leaves the stale handle in
place, so in HALF_OPEN the handle may be non-null. -/
theorem timer_handle_ownership (r : Relay) (hr : Reachable r) :
    (r.coolDownPending = true → r.state = RelayState.OPEN ∧ r.coolDownTimer.isSome = true) ∧
    (step r Event.coolDownFire).coolDownTimer = r.coolDownTimer ∧
    (cleanup r).coolDownTimer = none ∧
    (closeRelay r).coolDownTimer = none := by
  refine ⟨(reachable_inv r hr).1, ?_, ?_, ?_⟩
  · simp only [step, halfOpenRelay]
    split_ifs <;> rfl
  · cases hc : r.coolDownTimer <;> simp [cleanup, hc]
  · cases hc : r.coolDownTimer <;> simp [closeRelay, hc]

/-- C9 witness: timer ownership at the OPEN Relay `exR1`, which holds a
pending cooldown timer. -/
theorem timer_handle_ownership_witness :
    (exR1.coolDownPending = true →
      exR1.state = RelayState.OPEN ∧ exR1.coolDownTimer.isSome = true) ∧
    (step exR1 Event.coolDownFire).coolDownTimer = exR1.coolDownTimer ∧
    (cleanup exR1).coolDownTimer = none ∧
    (closeRelay exR1).coolDownTimer = none :=
  timer_handle_ownership exR1
    (Reachable.next (Reachable.init optsT1) (Event.run Outcome.failure 0))

/-- C10 counterexample: `register(null, {})` is not a silent no-op —
`typeof null === 'object'`, so the object branch is taken and
`Object.getPrototypeOf(null)` throws a `TypeError`. -/
theorem register_null_throws_cex :
    (relayRegister exR0 JSValue.vnull (JSValue.vobj true [] [])).2 = true := by decide

/-- C10 (amended): for every pair of arguments whose `typeof` values are
neither both `'function'` nor both `'object'`, `register` is a silent
no-op: it raises no error and leaves the registry and every other Relay
field unchanged.  (`null` is excluded: its `typeof` is `'object'`, and
pairing it with an object reaches `Object.getPrototypeOf` / member
access, which throw.) -/
theorem register_mismatched_noop (r : Relay) (p f : JSValue)
    (h1 : ¬(typeofStr p = "function" ∧ typeofStr f = "function"))
    (h2 : ¬(typeofStr p = "object" ∧ typeofStr f = "object")) :
    relayRegister r p f = (r, false) := by
  simp [relayRegister, registerModel, h1, h2]

/-- C10 witness: registering a function together with a number changes
nothing and does not throw. -/
theorem register_mismatched_noop_witness :
    relayRegister exR0 (JSValue.vfunc 0) (JSValue.vnum 2) = (exR0, false) :=
  register_mismatched_noop exR0 (JSValue.vfunc 0) (JSValue.vnum 2)
    (by decide) (by decide)

/-- C4: starting from construction, the only state transitions that ever
occur are CLOSED→OPEN when a failing attempt brings `failureCount` to the
threshold, OPEN→HALF_OPEN when the cooldown timer fires, HALF_OPEN→CLOSED
when the next attempt succeeds, and HALF_OPEN→OPEN when the next attempt
fails; no other transition is reachable. -/
theorem state_transitions_strict (r : Relay) (hr : Reachable r) (e : Event)
    (hch : (step r e).state ≠ r.state) :
    (r.state = RelayState.CLOSED ∧ (step r e).state = RelayState.OPEN ∧
      (∃ now, e = Event.run Outcome.failure now ∨ e = Event.run Outcome.timeout now) ∧
      r.options.failureThreshold ≤ (step r e).failureCount) ∨
    (r.state = RelayState.OPEN ∧ (step r e).state = RelayState.HALF_OPEN ∧
      e = Event.coolDownFire) ∨
    (r.state = RelayState.HALF_OPEN ∧ (step r e).state = RelayState.CLOSED ∧
      ∃ now, e = Event.run Outcome.success now) ∨
    (r.state = RelayState.HALF_OPEN ∧ (step r e).state = RelayState.OPEN ∧
      ∃ now, e = Event.run Outcome.failure now ∨ e = Event.run Outcome.timeout now) := by
  obtain ⟨h1, h2, h3⟩ := reachable_inv r hr
  cases e with
  | run o now =>
    by_cases hO : r.state = RelayState.OPEN
    · exact absurd (by simp [step, hO]) hch
    · cases o with
      | success =>
        have hst := step_state_run_success r now hO
        by_cases hH : r.state = RelayState.HALF_OPEN
        · rw [if_pos hH] at hst
          exact Or.inr (Or.inr (Or.inl ⟨hH, hst, now, rfl⟩))
        · rw [if_neg hH] at hst
          exact absurd hst hch
      | failure =>
        have hst := step_state_run_failure r now hO
        have hfc := step_failureCount_run_failure r now hO
        by_cases hG : r.options.failureThreshold ≤ r.failureCount + 1
        · rw [if_pos hG] at hst
          cases hs : r.state with
          | OPEN => exact absurd hs hO
          | CLOSED =>
            exact Or.inl ⟨rfl, hst, ⟨now, Or.inl rfl⟩, by rw [hfc]; exact hG⟩
          | HALF_OPEN =>
            exact Or.inr (Or.inr (Or.inr ⟨rfl, hst, now, Or.inl rfl⟩))
        · rw [if_neg hG] at hst
          exact absurd hst hch
      | timeout =>
        have hst := step_state_run_timeout r now hO
        have hfc := step_failureCount_run_timeout r now hO
        by_cases hG : r.options.failureThreshold ≤ r.failureCount + 1
        · rw [if_pos hG] at hst
          cases hs : r.state with
          | OPEN => exact absurd hs hO
          | CLOSED =>
            exact Or.inl ⟨rfl, hst, ⟨now, Or.inr rfl⟩, by rw [hfc]; exact hG⟩
          | HALF_OPEN =>
            exact Or.inr (Or.inr (Or.inr ⟨rfl, hst, now, Or.inr rfl⟩))
        · rw [if_neg hG] at hst
          exact absurd hst hch
  | coolDownFire =>
    by_cases hp : r.coolDownPending = true
    · have hOP := (h1 hp).1
      have hst : (step r Event.coolDownFire).state = RelayState.HALF_OPEN := by
        simp [step, hp, halfOpenRelay]
      exact Or.inr (Or.inl ⟨hOP, hst, rfl⟩)
    · exact absurd (by simp [step, hp]) hch
  | execTimeoutFire =>
    refine absurd ?_ hch
    simp only [step]
    split_ifs <;> rfl
  | cleanupEv =>
    refine absurd ?_ hch
    simp only [step, cleanup]
    split_ifs <;> rfl
  | registerEv p f => exact absurd rfl hch

/-- C4 witness: the first failing attempt on a fresh Relay with
`failureThreshold = 1` is a CLOSED→OPEN transition of the allowed kind. -/
theorem state_transitions_strict_witness :
    (exR0.state = RelayState.CLOSED ∧
      (step exR0 (Event.run Outcome.failure 0)).state = RelayState.OPEN ∧
      (∃ now, Event.run Outcome.failure 0 = Event.run Outcome.failure now ∨
        Event.run Outcome.failure 0 = Event.run Outcome.timeout now) ∧
      exR0.options.failureThreshold ≤
        (step exR0 (Event.run Outcome.failure 0)).failureCount) ∨
    (exR0.state = RelayState.OPEN ∧
      (step exR0 (Event.run Outcome.failure 0)).state = RelayState.HALF_OPEN ∧
      Event.run Outcome.failure 0 = Event.coolDownFire) ∨
    (exR0.state = RelayState.HALF_OPEN ∧
      (step exR0 (Event.run Outcome.failure 0)).state = RelayState.CLOSED ∧
      ∃ now, Event.run Outcome.failure 0 = Event.run Outcome.success now) ∨
    (exR0.state = RelayState.HALF_OPEN ∧
      (step exR0 (Event.run Outcome.failure 0)).state = RelayState.OPEN ∧
      ∃ now, Event.run Outcome.failure 0 = Event.run Outcome.failure now ∨
        Event.run Outcome.failure 0 = Event.run Outcome.timeout now) :=
  state_transitions_strict exR0 (Reachable.init optsT1)
    (Event.run Outcome.failure 0) (by decide)

set_option maxHeartbeats 4000000 in
/-- C5: on every open transition the scheduled cooldown equals
`coolDownPeriod` when backoff is disabled, and
`min(coolDownPeriod * 2^(N-1), maxCooldown)` when it is enabled, where
`N = consecutiveOpenCount` after its increment; and `consecutiveOpenCount`
is reset to 0 only by the close transition (a successful attempt in
HALF_OPEN). -/
theorem open_cooldown_formula (r : Relay) (e : Event)
    (hpre : r.state ≠ RelayState.OPEN) (hpost : (step r e).state = RelayState.OPEN) :
    ((step r e).consecutiveOpenCount = r.consecutiveOpenCount + 1 ∧
     (step r e).coolDownTimer = some (
       if r.options.useExponentialBackoff then
         min (r.options.coolDownPeriod * 2 ^ (r.consecutiveOpenCount + 1 - 1))
             r.options.maxCooldown
       else r.options.coolDownPeriod)) ∧
    ∀ (s : Relay) (e' : Event),
      (step s e').consecutiveOpenCount = 0 → s.consecutiveOpenCount ≠ 0 →
      s.state = RelayState.HALF_OPEN ∧ ∃ now, e' = Event.run Outcome.success now := by
  constructor
  · cases e with
    | run o now =>
      cases o with
      | success =>
        have hst := step_state_run_success r now hpre
        by_cases hH : r.state = RelayState.HALF_OPEN
        · rw [if_pos hH] at hst
          exact absurd (hst.symm.trans hpost) (by decide)
        · rw [if_neg hH] at hst
          exact absurd (hst.symm.trans hpost) hpre
      | failure =>
        by_cases hG : r.options.failureThreshold ≤ r.failureCount + 1
        · exact step_run_failure_open_fields r now hpre hG
        · have hst := step_state_run_failure r now hpre
          rw [if_neg hG] at hst
          exact absurd (hst.symm.trans hpost) hpre
      | timeout =>
        by_cases hG : r.options.failureThreshold ≤ r.failureCount + 1
        · exact step_run_timeout_open_fields r now hpre hG
        · have hst := step_state_run_timeout r now hpre
          rw [if_neg hG] at hst
          exact absurd (hst.symm.trans hpost) hpre
    | coolDownFire =>
      by_cases hp : r.coolDownPending = true
      · have hst : (step r Event.coolDownFire).state = RelayState.HALF_OPEN := by
          simp [step, hp, halfOpenRelay]
        exact absurd (hst.symm.trans hpost) (by decide)
      · have hst : (step r Event.coolDownFire).state = r.state := by simp [step, hp]
        exact absurd (hst.symm.trans hpost) hpre
    | execTimeoutFire =>
      have hst : (step r Event.execTimeoutFire).state = r.state := by
        simp only [step]; split_ifs <;> rfl
      exact absurd (hst.symm.trans hpost) hpre
    | cleanupEv =>
      have hst : (step r Event.cleanupEv).state = r.state := by
        simp only [step, cleanup]; split_ifs <;> rfl
      exact absurd (hst.symm.trans hpost) hpre
    | registerEv p f => exact absurd hpost hpre
  · intro s e' hz hnz
    obtain ⟨fc, lft, sc, tfc, tc, st, coc, cdt, cdp, pet, opts, reg⟩ := s
    cases e' with
    | run o now =>
      cases st <;> cases o <;>
        simp_all [step, handleSuccess, handleFailure, openRelay, closeRelay,
          calculateCooldown] <;>
        (try split_ifs at hz) <;> simp_all
    | coolDownFire =>
      cases cdp <;> simp_all [step, halfOpenRelay]
    | execTimeoutFire =>
      by_cases hp : 0 < pet <;> simp_all [step]
    | cleanupEv =>
      cases cdt <;> simp_all [step, cleanup]
    | registerEv p f => simp_all [step]

/-- C5 witness: the first open of a fresh `failureThreshold = 1` Relay
(no backoff) schedules exactly the base `coolDownPeriod` and increments
`consecutiveOpenCount` to 1. -/
theorem open_cooldown_formula_witness :
    (step exR0 (Event.run Outcome.failure 0)).consecutiveOpenCount =
      exR0.consecutiveOpenCount + 1 ∧
    (step exR0 (Event.run Outcome.failure 0)).coolDownTimer = some (
      if exR0.options.useExponentialBackoff then
        min (exR0.options.coolDownPeriod * 2 ^ (exR0.consecutiveOpenCount + 1 - 1))
            exR0.options.maxCooldown
      else exR0.options.coolDownPeriod) :=
  (open_cooldown_formula exR0 (Event.run Outcome.failure 0)
    (by decide) (by decide)).1

end SurgeKit
